import Mathlib

/-!
Verification of the routing and state-machine orchestration layer of the
post-purchase multi-agent chatbot.

Shallow embedding of:
* `src/orchestration/state_management.py` (`StateManager`, `ConversationState`)
* `src/orchestration/routing_logic.py` (`AgentRouter`)
* `src/orchestration/langgraph_flow.py` (`_route_after_agent`)
* `src/agents/controller_agent.py` (`_check_escalation`, `route_request`)

Python dictionaries are modelled as insertion-ordered association lists of
JSON-like values (`JVal`); Python `datetime.now()` timestamps are explicit
parameters; calls to the external OpenAI client are abstracted as an
`LLMOutcome` parameter (the provider is outside the repository).
-/

namespace PostPurchase

/-- JSON-like values, the payloads stored in the Python dictionaries of
`state_management.py` (numbers appearing in this layer are integers). -/
inductive JVal where
  | null : JVal
  | bool (b : Bool) : JVal
  | num (n : Int) : JVal
  | str (s : String) : JVal
  | arr (xs : List JVal) : JVal
  | obj (fs : List (String × JVal)) : JVal
  deriving Repr, BEq

/-- A Python `dict` with string keys: insertion-ordered association list. -/
abbrev PyDict := List (String × JVal)

/-- Python `d.get(k)` / `d[k]` lookup: first binding wins. -/
def dget (d : PyDict) (k : String) : Option JVal :=
  match d with
  | [] => none
  | (k', v) :: rest => if k' = k then some v else dget rest k

/-- Python `k in d`. -/
def dmem (d : PyDict) (k : String) : Bool :=
  match d with
  | [] => false
  | (k', _) :: rest => k' == k || dmem rest k

/-- Python `d[k] = v`: replace in place if the key exists (keeping its
position), otherwise append at the end (insertion order). -/
def dset (d : PyDict) (k : String) (v : JVal) : PyDict :=
  match d with
  | [] => [(k, v)]
  | (k', v') :: rest => if k' = k then (k, v) :: rest else (k', v') :: dset rest k v

/-- Python `d.update(u)`: apply `d[k] = v` for each pair of `u` in order. -/
def dupdate (d : PyDict) (u : PyDict) : PyDict :=
  u.foldl (fun acc kv => dset acc kv.1 kv.2) d

theorem dget_dset_self (d : PyDict) (k : String) (v : JVal) :
    dget (dset d k v) k = some v := by
  induction d with
  | nil => simp [dget, dset]
  | cons hd tl ih =>
    obtain ⟨k', v'⟩ := hd
    by_cases h : k' = k <;> simp [dget, dset, h, ih]

theorem dget_dset_ne (d : PyDict) (k k' : String) (v : JVal) (hne : k ≠ k') :
    dget (dset d k v) k' = dget d k' := by
  induction d with
  | nil => simp [dget, dset, hne]
  | cons hd tl ih =>
    obtain ⟨k₀, v₀⟩ := hd
    by_cases h : k₀ = k
    · subst h; simp [dget, dset, hne]
    · by_cases h' : k₀ = k' <;>
        simp [dget, dset, h, h', ih, Ne.symm hne]

theorem dmem_dset (d : PyDict) (k k' : String) (v : JVal) :
    dmem (dset d k v) k' = (k == k' || dmem d k') := by
  induction d with
  | nil => simp [dmem, dset]
  | cons hd tl ih =>
    obtain ⟨k₀, v₀⟩ := hd
    by_cases h : k₀ = k
    · subst h; simp [dmem, dset]
    · simp [dset, h, dmem, ih]
      cases hb : (k == k') <;> cases hb' : (k₀ == k') <;> simp_all

theorem dmem_dset_of_dmem (d : PyDict) (k k' : String) (v : JVal)
    (h : dmem d k = true) : dmem (dset d k v) k' = dmem d k' := by
  rw [dmem_dset]
  cases hb : (k == k')
  · simp
  · simp at hb
    subst hb
    simp [h]

end PostPurchase

namespace PostPurchase

/-! ## `src/orchestration/state_management.py` -/

/-- The `StateManager.states` mapping: mapping conversation id → state dict. -/
abbrev Manager := List (String × PyDict)

def mgrGet (m : Manager) (cid : String) : Option PyDict :=
  match m with
  | [] => none
  | (k, v) :: rest => if k = cid then some v else mgrGet rest cid

def mgrSet (m : Manager) (cid : String) (st : PyDict) : Manager :=
  match m with
  | [] => [(cid, st)]
  | (k, v) :: rest => if k = cid then (cid, st) :: rest else (k, v) :: mgrSet rest cid st

/-- Embeds `StateManager.create_state`: the initial `ConversationState` dict.
`startedAt` stands for `datetime.now().isoformat()`. -/
def create_state (conversationId : String) (customerId orderId : Option String)
    (startedAt : String) : PyDict :=
  [ ("conversation_id", JVal.str conversationId),
    ("customer_id", (customerId.map JVal.str).getD JVal.null),
    ("order_id", (orderId.map JVal.str).getD JVal.null),
    ("messages", JVal.arr []),
    ("current_agent", JVal.str "controller"),
    ("context", JVal.obj
      [ ("started_at", JVal.str startedAt),
        ("turn_count", JVal.num 0),
        ("issues_detected", JVal.arr []),
        ("sentiment", JVal.str "neutral") ]),
    ("metadata", JVal.obj []),
    ("next_action", JVal.null) ]

/-- Embeds `StateManager.create_state` at manager level: stores and returns the state. -/
def mgrCreateState (m : Manager) (conversationId : String)
    (customerId orderId : Option String) (startedAt : String) : Manager × PyDict :=
  let st := create_state conversationId customerId orderId startedAt
  (mgrSet m conversationId st, st)

/-- The message dict built by `add_message` (keys in source order; the
`agent_type` key is present only when the argument is). -/
def mkMessage (role content timestamp : String) (agentType : Option String) : JVal :=
  JVal.obj ([("role", JVal.str role), ("content", JVal.str content),
             ("timestamp", JVal.str timestamp)] ++
            (match agentType with
             | some a => [("agent_type", JVal.str a)]
             | none => []))

/-- Embeds `StateManager.add_message` on one state dict: append the message to
`state['messages']` and do `state['context']['turn_count'] += 1`.
Returns `none` where Python would raise (missing or ill-typed fields). -/
def add_message (st : PyDict) (role content : String) (agentType : Option String)
    (timestamp : String) : Option PyDict :=
  match dget st "messages", dget st "context" with
  | some (JVal.arr ms), some (JVal.obj ctx) =>
    match dget ctx "turn_count" with
    | some (JVal.num n) =>
      some (dset (dset st "messages" (JVal.arr (ms ++ [mkMessage role content timestamp agentType])))
             "context" (JVal.obj (dset ctx "turn_count" (JVal.num (n + 1)))))
    | _ => none
  | _, _ => none

/-- Embeds `StateManager.add_message` at manager level (`ValueError` → `none`). -/
def mgrAddMessage (m : Manager) (cid role content : String)
    (agentType : Option String) (timestamp : String) : Option (Manager × PyDict) :=
  match mgrGet m cid with
  | none => none
  | some st =>
    match add_message st role content agentType timestamp with
    | none => none
    | some st' => some (mgrSet m cid st', st')

/-- The update loop of `StateManager.update_state`:
`for key, value in updates.items(): if key in state: state[key] = value`. -/
def applyUpdates (st : PyDict) (updates : PyDict) : PyDict :=
  updates.foldl (fun s kv => if dmem s kv.1 then dset s kv.1 kv.2 else s) st

/-- Embeds `StateManager.update_state` (`ValueError` on unknown id → `none`). -/
def update_state (m : Manager) (cid : String) (updates : PyDict) :
    Option (Manager × PyDict) :=
  match mgrGet m cid with
  | none => none
  | some st =>
    let st' := applyUpdates st updates
    some (mgrSet m cid st', st')

/-- Embeds `StateManager.update_context`: `state['context'].update(context_updates)`.
`none` where Python would raise. -/
def update_context (m : Manager) (cid : String) (ctxUpdates : PyDict) :
    Option (Manager × PyDict) :=
  match mgrGet m cid with
  | none => none
  | some st =>
    match dget st "context" with
    | some (JVal.obj ctx) =>
      let st' := dset st "context" (JVal.obj (dupdate ctx ctxUpdates))
      some (mgrSet m cid st', st')
    | _ => none

/-- Embeds `StateManager.export_state`: the JSON value that `json.dumps` would
serialize (`"{}"` for an unknown conversation). The `json.dumps`/`json.loads`
string pair of the standard library is treated as an exact inverse pair on
these values, so export/import are modelled at the JSON-value level. -/
def export_state (m : Manager) (cid : String) : JVal :=
  match mgrGet m cid with
  | none => JVal.obj []
  | some st => JVal.obj st

/-- Embeds `StateManager.import_state`: parse, read `state['conversation_id']`,
store under it and return the state. `none` where Python would raise
(non-object payload, missing id). -/
def import_state (m : Manager) (payload : JVal) : Option (Manager × PyDict) :=
  match payload with
  | JVal.obj st =>
    match dget st "conversation_id" with
    | some (JVal.str cid) => some (mgrSet m cid st, st)
    | _ => none
  | _ => none

/-- Read `state['context']['turn_count']` of a state dict. -/
def turnCount (st : PyDict) : Option Int :=
  match dget st "context" with
  | some (JVal.obj ctx) =>
    match dget ctx "turn_count" with
    | some (JVal.num n) => some n
    | _ => none
  | _ => none

/-- Read `state['messages']` of a state dict. -/
def messagesOf (st : PyDict) : Option (List JVal) :=
  match dget st "messages" with
  | some (JVal.arr ms) => some ms
  | _ => none

/-- Read `state['context']` of a state dict. -/
def contextOf (st : PyDict) : Option JVal := dget st "context"

/-! ## Strings: Python `needle in haystack` (substring containment) -/

/-- Tests whether `needle` occurs as a contiguous sublist of `hay`. -/
def isSubList (needle : List Char) : List Char → Bool
  | [] => needle.isEmpty
  | c :: t => needle.isPrefixOf (c :: t) || isSubList needle t

/-- Python `needle in hay` for strings. -/
def strContains (hay needle : String) : Bool :=
  isSubList needle.toList hay.toList

/-- Python `s.lower()` (ASCII case mapping, applied character-wise; written
structurally so that concrete evaluation reduces in the kernel). -/
def pyLower (s : String) : String := ⟨s.data.map Char.toLower⟩

/-- Generic association-list lookup (Python `d.get(k)` on a literal dict). -/
def alookup {α : Type} (l : List (String × α)) (k : String) : Option α :=
  match l with
  | [] => none
  | (k', v) :: rest => if k' = k then some v else alookup rest k

end PostPurchase

namespace PostPurchase

/-! ## `src/orchestration/routing_logic.py` (`AgentRouter`) -/

/-- The context fields `routing_logic.py` reads from the conversation
context mapping (each modelling Python truthiness of `context.get(...)`;
`order_id` keeps the string so that an empty string stays falsy). -/
structure RouteCtx where
  image_uploaded : Bool := false
  requires_approval : Bool := false
  escalate : Bool := false
  order_id : Option String := none

/-- Python truthiness of `context.get('order_id')`. -/
def RouteCtx.orderIdTruthy (c : RouteCtx) : Bool :=
  match c.order_id with
  | some s => !(s == "")
  | none => false

/-- The table `AgentRouter.intent_keywords`, in insertion (declaration) order. -/
def intent_keywords : List (String × List String) :=
  [ ("order_status", ["track", "status", "where is", "shipped", "delivery"]),
    ("defect", ["defect", "broken", "damaged", "wrong item", "quality"]),
    ("exchange", ["exchange", "different size", "different color", "swap"]),
    ("refund", ["refund", "money back", "return", "cancel"]),
    ("sizing", ["size", "fit", "too small", "too large", "too big"]) ]

/-- Number of keywords of one intent found in the lowercased message. -/
def matchCount (ml : String) (kws : List String) : Nat :=
  kws.countP (fun k => strContains ml k)

/-- The `intent_scores` dict of `AgentRouter._detect_intent`: intents whose
keywords score positively on the lowercased message, in insertion order. -/
def scoredIntents (ml : String) : List (String × Nat) :=
  intent_keywords.filterMap (fun p =>
    let s := matchCount ml p.2
    if s > 0 then some (p.1, s) else none)

/-- Embeds `AgentRouter._detect_intent`. `max(intent_scores, key=intent_scores.get)`
returns the first key of maximal score in insertion order, embodied by a left
fold that replaces the best candidate only on a strictly greater score. -/
def detect_intent (message : String) (ctx : RouteCtx) : String :=
  if ctx.image_uploaded then "visual_verification"
  else
    match scoredIntents (pyLower message) with
    | [] => "general_query"
    | x :: xs => (xs.foldl (fun best y => if y.2 > best.2 then y else best) x).1

/-- The `intent_agent_map` literal of `AgentRouter._map_intent_to_agent`. -/
def intent_agent_map : List (String × String) :=
  [ ("order_status", "monitor"), ("tracking", "monitor"),
    ("defect", "visual"), ("visual_verification", "visual"),
    ("exchange", "exchange"), ("sizing", "exchange"),
    ("refund", "resolution"), ("return", "resolution"),
    ("policy_question", "resolution"), ("general_query", "controller") ]

/-- Embeds `AgentRouter._map_intent_to_agent`. -/
def map_intent_to_agent (intent : String) (ctx : RouteCtx) : String :=
  let agent := (alookup intent_agent_map intent).getD "controller"
  let agent := if ctx.requires_approval then "resolution" else agent
  if ctx.escalate then "human" else agent

/-- Embeds `AgentRouter._calculate_confidence`; Python float literals are embedded
as the rationals they denote. -/
def calculate_confidence (message intent : String) (ctx : RouteCtx) : ℚ :=
  let ml := pyLower message
  let kws := (alookup intent_keywords intent).getD []
  let mc := matchCount ml kws
  let base : ℚ := if mc ≥ 2 then 9/10 else if mc = 1 then 3/4 else 7/10
  let base :=
    if ctx.orderIdTruthy && ["order_status", "refund", "exchange"].contains intent
    then base + 1/10 else base
  min base 1

/-- The `reasoning_map` literal of `AgentRouter._generate_reasoning`. -/
def reasoning_map : List ((String × String) × String) :=
  [ (("order_status", "monitor"), "User asking about order tracking/status"),
    (("tracking", "monitor"), "User needs shipping/delivery information"),
    (("defect", "visual"), "User reporting product defect requiring verification"),
    (("exchange", "exchange"), "User wants to exchange product"),
    (("sizing", "exchange"), "User has sizing concerns"),
    (("refund", "resolution"), "User requesting refund"),
    (("return", "resolution"), "User wants to return product"),
    (("general_query", "controller"), "General question, controller can handle") ]

/-- Embeds `AgentRouter._generate_reasoning`. -/
def generate_reasoning (intent agent : String) : String :=
  (((reasoning_map.find? (fun p => p.1.1 == intent && p.1.2 == agent)).map (·.2)).getD
    ("Routing " ++ intent ++ " to " ++ agent))

/-- The dict returned by `AgentRouter.route`. -/
structure RouteDecision where
  agent : String
  intent : String
  confidence : ℚ
  reasoning : String
  deriving Repr, BEq, DecidableEq

/-- Embeds `AgentRouter.route`. -/
def route (user_message : String) (ctx : RouteCtx) : RouteDecision :=
  let intent := detect_intent user_message ctx
  let agent := map_intent_to_agent intent ctx
  { agent := agent,
    intent := intent,
    confidence := calculate_confidence user_message intent ctx,
    reasoning := generate_reasoning intent agent }

end PostPurchase

namespace PostPurchase

/-! ## `src/orchestration/langgraph_flow.py` -/

/-- LangGraph's terminal sentinel `END` (the string `"__end__"`). -/
def END : String := "__end__"

/-- Python `v == s` where `v` is an arbitrary state value and `s` a string. -/
def jvalIsStr (v : JVal) (s : String) : Bool :=
  match v with
  | JVal.str t => t == s
  | _ => false

/-- Embeds `AgentOrchestrator._route_after_agent` on a state dict.
`next_action = state.get('next_action', END)`; booleans compare as the
integers Python treats them as; `none` where Python would raise
(`state['context']` missing/ill-typed, or a `turn_count` value not
comparable with `10`). -/
def route_after_agent (st : PyDict) : Option String :=
  let na := (dget st "next_action").getD (JVal.str END)
  if jvalIsStr na END then some END
  else
    match dget st "context" with
    | some (JVal.obj ctx) =>
      let tcOpt : Option Int :=
        match dget ctx "turn_count" with
        | some (JVal.num n) => some n
        | some (JVal.bool b) => some (if b then 1 else 0)
        | none => some 0
        | some _ => none
      match tcOpt with
      | none => none
      | some tc =>
        if tc > 10 then some END
        else if ["monitor", "visual", "exchange", "resolution"].any
                  (fun a => jvalIsStr na a) then some "controller"
        else some END
    | _ => none

end PostPurchase

namespace PostPurchase

/-! ## `src/agents/controller_agent.py` (`ControllerAgent`) -/

/-- One entry of `escalation_rules['automatic_escalation_triggers']`
(loaded from `data/playbooks/escalation_rules.json`). The `condition`
mapping carries whichever of the keys is present in the JSON. -/
structure TriggerCond where
  keywords : Option (List String) := none
  order_value_exceeds : Option Int := none
  customer_tiers : Option (List String) := none
  deriving Repr

structure Trigger where
  trigger_id : String
  condition : TriggerCond
  escalate_to_tier : Int
  reason : String
  auto_escalate : Bool := true
  deriving Repr

/-- The context fields `_check_escalation` and its callers read. -/
structure CtrlCtx where
  order_value : Option Int := none
  customer_tier : Option String := none
  deriving Repr

/-- The dicts returned by `_check_escalation` and `route_request`
(one structure per possible key; absent keys are `none`/`false`). -/
structure CtrlResult where
  should_escalate : Bool
  escalate_to_tier : Option Int := none
  reason : Option String := none
  trigger_id : Option String := none
  agent : Option String := none
  offer_escalation : Bool := false
  error : Option String := none
  fallback : Bool := false
  response : Option String := none
  deriving Repr, BEq, DecidableEq

/-- Embeds the check `'keywords' in trigger.get('condition', {})` followed by
`any(keyword in user_message_lower for keyword in keywords)`.
Only the message is lowercased by the code. -/
def kwTriggerMatch (ml : String) (t : Trigger) : Bool :=
  match t.condition.keywords with
  | some kws => kws.any (fun k => strContains ml k)
  | none => false

/-- Embeds the check `'order_value_exceeds' in trigger.get('condition', {})` followed by
`context.get('order_value', 0) > trigger['condition']['order_value_exceeds']`. -/
def valTriggerMatch (ctx : CtrlCtx) (t : Trigger) : Bool :=
  match t.condition.order_value_exceeds with
  | some thr => (ctx.order_value.getD 0) > thr
  | none => false

/-- A trigger fires on this message/context (keyword check first, then
value check — both early-return with the same trigger's fields). -/
def triggerMatches (ml : String) (ctx : CtrlCtx) (t : Trigger) : Bool :=
  kwTriggerMatch ml t || valTriggerMatch ctx t

/-- The escalation dict built for a firing trigger. -/
def escalationOf (t : Trigger) : CtrlResult :=
  { should_escalate := true,
    escalate_to_tier := some t.escalate_to_tier,
    reason := some t.reason,
    trigger_id := some t.trigger_id,
    agent := some "human_escalation" }

/-- The dict `\x7b'should_escalate': False\x7d`, the fall-through result. -/
def noEscalation : CtrlResult := { should_escalate := false }

/-- The trigger loop of `_check_escalation` (message already lowercased). -/
def checkEscalationLower (ml : String) (ctx : CtrlCtx) : List Trigger → CtrlResult
  | [] => noEscalation
  | t :: ts =>
    if kwTriggerMatch ml t then escalationOf t
    else if valTriggerMatch ctx t then escalationOf t
    else checkEscalationLower ml ctx ts

/-- Embeds `ControllerAgent._check_escalation`. -/
def check_escalation (triggers : List Trigger) (user_message : String)
    (ctx : CtrlCtx) : CtrlResult :=
  checkEscalationLower (pyLower user_message) ctx triggers

/-- The first trigger (in list order) whose condition matches. -/
def firstMatching (ml : String) (ctx : CtrlCtx) (ts : List Trigger) : Option Trigger :=
  ts.find? (fun t => triggerMatches ml ctx t)

/-- Outcome of the external OpenAI chat-completion call made by
`route_request` (the provider is outside the repository): a structured
function-call selection, a direct text answer, or a raised error
(timeout / provider error, after the client's retries). -/
inductive LLMOutcome where
  | functionCall (name : String)
  | direct (content : String)
  | failure (err : String)
  deriving Repr

/-- Embeds `ControllerAgent.route_request`: the escalation check runs first and
short-circuits; otherwise the result is shaped by the model call's outcome;
every exception is caught and turned into the fallback dict
`{'agent': 'controller_agent', 'error': ..., 'fallback': True}`. -/
def route_request (triggers : List Trigger) (user_message : String)
    (ctx : CtrlCtx) (llm : LLMOutcome) : CtrlResult :=
  let esc := check_escalation triggers user_message ctx
  if esc.should_escalate then esc
  else
    match llm with
    | .functionCall name => { should_escalate := false, agent := some name }
    | .direct content =>
      { should_escalate := false, agent := some "controller_agent",
        response := some content }
    | .failure e =>
      { should_escalate := false, agent := some "controller_agent",
        error := some e, fallback := true }

end PostPurchase

namespace PostPurchase

/-! ## Spec-side definitions and iteration helpers -/

/-- The routing-confidence formula as the specification words it (amended to
make the 0-match base explicit): base 0.7 for no keyword match of the
detected intent, 0.75 for exactly one, 0.9 for two or more, plus a 0.1 bonus
when the context carries an order id and the detected intent is one of
`order_status`/`refund`/`exchange`, capped at 1.0. Stated separately from
`calculate_confidence` so that the code can be compared against it. -/
def specConfidence (message : String) (ctx : RouteCtx) : ℚ :=
  let intent := detect_intent message ctx
  let mc := matchCount (pyLower message) ((alookup intent_keywords intent).getD [])
  let base : ℚ := if mc ≥ 2 then 9/10 else if mc = 1 then 3/4 else 7/10
  let withBonus :=
    if ctx.orderIdTruthy && ["order_status", "refund", "exchange"].contains intent
    then base + 1/10 else base
  min withBonus 1

/-- One `add_message` input: role, content, optional agent type, timestamp. -/
abbrev MsgInput := String × String × Option String × String

/-- Iterate `StateManager.add_message` over a list of inputs. -/
def addMany (st : PyDict) : List MsgInput → Option PyDict
  | [] => some st
  | (role, content, agentType, ts) :: rest =>
    match add_message st role content agentType ts with
    | none => none
    | some st' => addMany st' rest

end PostPurchase

namespace PostPurchase

/-! ## Supporting lemmas -/

theorem checkEscalationLower_should_escalate (ml : String) (ctx : CtrlCtx) :
    ∀ ts : List Trigger,
      (checkEscalationLower ml ctx ts).should_escalate = ts.any (triggerMatches ml ctx)
  | [] => rfl
  | t :: ts => by
    by_cases h1 : kwTriggerMatch ml t
    · simp [checkEscalationLower, h1, escalationOf, triggerMatches]
    · by_cases h2 : valTriggerMatch ctx t
      · simp [checkEscalationLower, h1, h2, escalationOf, triggerMatches]
      · simp [checkEscalationLower, h1, h2, triggerMatches,
              checkEscalationLower_should_escalate ml ctx ts]

theorem checkEscalationLower_eq_firstMatching (ml : String) (ctx : CtrlCtx) :
    ∀ ts : List Trigger,
      checkEscalationLower ml ctx ts =
        ((firstMatching ml ctx ts).map escalationOf).getD noEscalation
  | [] => rfl
  | t :: ts => by
    by_cases h1 : kwTriggerMatch ml t
    · simp [checkEscalationLower, h1, firstMatching, List.find?, triggerMatches]
    · by_cases h2 : valTriggerMatch ctx t
      · simp [checkEscalationLower, h1, h2, firstMatching, List.find?, triggerMatches]
      · have hm : triggerMatches ml ctx t = false := by
          simp [triggerMatches, h1, h2]
        simp [checkEscalationLower, h1, h2, firstMatching, List.find?, hm,
              checkEscalationLower_eq_firstMatching ml ctx ts, firstMatching]

theorem find?_some_of_mem {α : Type} (p : α → Bool) :
    ∀ (l : List α) (a : α), a ∈ l → p a = true → ∃ b, l.find? p = some b
  | [], a, ha, _ => absurd ha (List.not_mem_nil a)
  | x :: xs, a, ha, hp => by
    by_cases hx : p x
    · exact ⟨x, by simp [List.find?, hx]⟩
    · rcases List.mem_cons.mp ha with h | h
      · subst h; exact absurd hp (by simp [hx])
      · obtain ⟨b, hb⟩ := find?_some_of_mem p xs a h hp
        exact ⟨b, by simp [List.find?, hx, hb]⟩

theorem applyUpdates_cons (st : PyDict) (k : String) (v : JVal) (u : PyDict) :
    applyUpdates st ((k, v) :: u) =
      applyUpdates (if dmem st k then dset st k v else st) u := rfl

theorem dmem_applyUpdates (u : PyDict) (st : PyDict) (k : String) :
    dmem (applyUpdates st u) k = dmem st k := by
  induction u generalizing st with
  | nil => rfl
  | cons kv u ih =>
    obtain ⟨k0, v0⟩ := kv
    rw [applyUpdates_cons]
    by_cases h : dmem st k0 = true
    · simp only [h, if_true]
      rw [ih, dmem_dset_of_dmem _ _ _ _ h]
    · simp only [h]
      simp only [Bool.false_eq_true, if_false]
      exact ih st

theorem dget_applyUpdates_not_mem (u : PyDict) (st : PyDict) (k : String)
    (h : ∀ v, (k, v) ∉ u) : dget (applyUpdates st u) k = dget st k := by
  induction u generalizing st with
  | nil => rfl
  | cons kv u ih =>
    obtain ⟨k0, v0⟩ := kv
    have hk0 : k0 ≠ k := by
      intro he
      exact h v0 (by simp [he])
    have hrest : ∀ v, (k, v) ∉ u := fun v hv => h v (List.mem_cons_of_mem _ hv)
    rw [applyUpdates_cons]
    by_cases hm : dmem st k0 = true
    · simp only [hm, if_true]
      rw [ih _ hrest, dget_dset_ne _ _ _ _ hk0]
    · simp only [hm]
      simp only [Bool.false_eq_true, if_false]
      exact ih st hrest

theorem add_message_step (st : PyDict) (ms : List JVal) (ctx : PyDict) (n : Int)
    (hm : dget st "messages" = some (JVal.arr ms))
    (hc : dget st "context" = some (JVal.obj ctx))
    (ht : dget ctx "turn_count" = some (JVal.num n))
    (role content : String) (agentType : Option String) (ts : String) :
    ∃ st' ctx',
      add_message st role content agentType ts = some st' ∧
      dget st' "messages" = some (JVal.arr (ms ++ [mkMessage role content ts agentType])) ∧
      dget st' "context" = some (JVal.obj ctx') ∧
      dget ctx' "turn_count" = some (JVal.num (n + 1)) := by
  refine ⟨dset (dset st "messages" (JVal.arr (ms ++ [mkMessage role content ts agentType])))
            "context" (JVal.obj (dset ctx "turn_count" (JVal.num (n + 1)))),
          dset ctx "turn_count" (JVal.num (n + 1)), ?_, ?_, ?_, ?_⟩
  · simp [add_message, hm, hc, ht]
  · rw [dget_dset_ne _ _ _ _ (by decide : ("context" : String) ≠ "messages")]
    exact dget_dset_self _ _ _
  · exact dget_dset_self _ _ _
  · exact dget_dset_self _ _ _

theorem addMany_count (inputs : List MsgInput) (st : PyDict) (ms : List JVal)
    (ctx : PyDict) (n : Int)
    (hm : dget st "messages" = some (JVal.arr ms))
    (hc : dget st "context" = some (JVal.obj ctx))
    (ht : dget ctx "turn_count" = some (JVal.num n)) :
    ∃ st' ms' ctx',
      addMany st inputs = some st' ∧
      dget st' "messages" = some (JVal.arr ms') ∧
      ms'.length = ms.length + inputs.length ∧
      dget st' "context" = some (JVal.obj ctx') ∧
      dget ctx' "turn_count" = some (JVal.num (n + inputs.length)) := by
  induction inputs generalizing st ms ctx n with
  | nil => exact ⟨st, ms, ctx, rfl, hm, by simp, hc, by simpa using ht⟩
  | cons i rest ih =>
    obtain ⟨role, content, agentType, ts⟩ := i
    obtain ⟨st1, ctx1, heq, hm1, hc1, ht1⟩ :=
      add_message_step st ms ctx n hm hc ht role content agentType ts
    obtain ⟨st', ms', ctx', ha, h1, h2, h3, h4⟩ := ih st1 _ ctx1 (n + 1) hm1 hc1 ht1
    refine ⟨st', ms', ctx', ?_, h1, ?_, h3, ?_⟩
    · simp [addMany, heq, ha]
    · simp only [List.length_append, List.length_cons, List.length_nil] at h2 ⊢
      omega
    · have hcast : (n + 1) + (rest.length : Int) = n + ((rest.length + 1 : Nat) : Int) := by
        push_cast
        ring
      simp only [List.length_cons]
      rw [← hcast]
      exact h4

theorem foldl_pick_mem (xs : List (String × Nat)) (x : String × Nat) :
    (xs.foldl (fun best y => if y.2 > best.2 then y else best) x) ∈ x :: xs := by
  induction xs generalizing x with
  | nil => simp [List.foldl]
  | cons y ys ih =>
    rw [List.foldl_cons]
    have h := ih (if y.2 > x.2 then y else x)
    rcases List.mem_cons.mp h with h1 | h1
    · rw [h1]
      by_cases hy : y.2 > x.2 <;> simp [hy]
    · simp [List.mem_cons, h1]

end PostPurchase

namespace PostPurchase

theorem scoredIntents_mem (ml : String) (i : String) (s : Nat)
    (h : (i, s) ∈ scoredIntents ml) :
    ∃ kws, (i, kws) ∈ intent_keywords ∧ matchCount ml kws = s ∧ 0 < s := by
  simp only [scoredIntents, List.mem_filterMap] at h
  obtain ⟨p, hp, heq⟩ := h
  by_cases hpos : 0 < matchCount ml p.2
  · rw [if_pos hpos] at heq
    have h12 := Option.some.inj heq
    have h1 : p.1 = i := congrArg Prod.fst h12
    have h2 : matchCount ml p.2 = s := congrArg Prod.snd h12
    exact ⟨p.2, by rw [← h1]; exact hp, h2, h2 ▸ hpos⟩
  · rw [if_neg hpos] at heq
    exact absurd heq (Option.noConfusion)

theorem alookup_intent_keywords (i : String) (kws : List String)
    (h : (i, kws) ∈ intent_keywords) :
    alookup intent_keywords i = some kws := by
  simp only [intent_keywords, List.mem_cons, List.not_mem_nil, or_false,
    Prod.mk.injEq] at h
  rcases h with ⟨rfl, rfl⟩ | ⟨rfl, rfl⟩ | ⟨rfl, rfl⟩ | ⟨rfl, rfl⟩ | ⟨rfl, rfl⟩ <;> rfl

theorem detect_intent_pos_count (msg : String) (ctx : RouteCtx)
    (h1 : detect_intent msg ctx ≠ "visual_verification")
    (h2 : detect_intent msg ctx ≠ "general_query") :
    0 < matchCount (pyLower msg)
        ((alookup intent_keywords (detect_intent msg ctx)).getD []) := by
  by_cases himg : ctx.image_uploaded
  · exfalso
    apply h1
    unfold detect_intent
    rw [if_pos himg]
  · cases hsc : scoredIntents (pyLower msg) with
    | nil =>
      exfalso
      apply h2
      unfold detect_intent
      rw [if_neg himg, hsc]
    | cons x xs =>
      have hd : detect_intent msg ctx =
          (xs.foldl (fun best y => if y.2 > best.2 then y else best) x).1 := by
        unfold detect_intent
        rw [if_neg himg, hsc]
      rw [hd]
      have hmem : (xs.foldl (fun best y => if y.2 > best.2 then y else best) x)
          ∈ scoredIntents (pyLower msg) := by
        rw [hsc]
        exact foldl_pick_mem xs x
      cases hb : xs.foldl (fun best y => if y.2 > best.2 then y else best) x with
      | mk i s =>
        rw [hb] at hmem
        obtain ⟨kws, hk, hcount, hpos⟩ := scoredIntents_mem (pyLower msg) i s hmem
        show 0 < matchCount (pyLower msg) ((alookup intent_keywords i).getD [])
        rw [alookup_intent_keywords i kws hk]
        simp only [Option.getD_some]
        rw [hcount]
        exact hpos

end PostPurchase

namespace PostPurchase

theorem checkEscalationLower_no_conditions (ml : String) (ctx : CtrlCtx) :
    ∀ ts : List Trigger,
      (∀ t ∈ ts, t.condition.keywords = none ∧ t.condition.order_value_exceeds = none) →
      checkEscalationLower ml ctx ts = noEscalation
  | [], _ => rfl
  | t :: ts, h => by
    have h1 := h t (List.mem_cons_self t ts)
    have hrec := checkEscalationLower_no_conditions ml ctx ts
      (fun t' ht' => h t' (List.mem_cons_of_mem t ht'))
    simp [checkEscalationLower, kwTriggerMatch, valTriggerMatch, h1.1, h1.2, hrec]

/-- C1: after a specialist node, `_route_after_agent` returns the terminal
END marker whenever the context's `turn_count` strictly exceeds the
configured maximum of 10, regardless of the value of `next_action`. -/
theorem turn_bound_forces_end (st : PyDict) (ctx : PyDict) (n : Int)
    (hc : dget st "context" = some (JVal.obj ctx))
    (ht : dget ctx "turn_count" = some (JVal.num n))
    (hn : 10 < n) :
    route_after_agent st = some END := by
  unfold route_after_agent
  by_cases h : jvalIsStr ((dget st "next_action").getD (JVal.str END)) END
  · simp [h]
  · simp only [h, Bool.false_eq_true, if_false, hc, ht]
    rw [if_pos hn]

/-- Witness for C1: a concrete state at turn 11 whose specialist requested a
follow-up (`next_action = "monitor"`) is still routed to END. -/
theorem turn_bound_forces_end_witness :
    route_after_agent (dset (dset (create_state "c1" none none "t0") "next_action"
        (JVal.str "monitor")) "context" (JVal.obj [("turn_count", JVal.num 11)]))
      = some END :=
  turn_bound_forces_end _ [("turn_count", JVal.num 11)] 11 rfl rfl (by decide)

/-- C2 as stated fails: the code lowercases only the message, never the
configured keyword, so a trigger keyword containing an uppercase letter
("Sue") does not match a message that contains it case-insensitively, and no
escalation is returned. -/
theorem keyword_escalation_cex :
    isSubList (pyLower "Sue").toList (pyLower "I will sue you").toList = true ∧
    (check_escalation [⟨"legal_threat", ⟨some ["Sue"], none, none⟩, 4,
        "Legal threat detected", true⟩] "I will sue you" {}).should_escalate = false ∧
    (route_request [⟨"legal_threat", ⟨some ["Sue"], none, none⟩, 4,
        "Legal threat detected", true⟩] "I will sue you" {}
        (.direct "ok")).should_escalate = false := by
  exact ⟨by decide, by decide, by decide⟩

/-- C2 (amended): if some trigger's configured keyword occurs verbatim in the
lowercased message, then `_check_escalation` — and hence `route_request`,
which runs it first and short-circuits — escalates, carrying the tier, reason
and trigger id of the first trigger in rule order whose condition matches. -/
theorem keyword_escalation_first_match (ts : List Trigger) (t : Trigger)
    (kws : List String) (k : String) (msg : String) (ctx : CtrlCtx) (llm : LLMOutcome)
    (ht : t ∈ ts) (hkw : t.condition.keywords = some kws) (hk : k ∈ kws)
    (hsub : strContains (pyLower msg) k = true) :
    ∃ t', firstMatching (pyLower msg) ctx ts = some t' ∧
      check_escalation ts msg ctx = escalationOf t' ∧
      (check_escalation ts msg ctx).should_escalate = true ∧
      (check_escalation ts msg ctx).escalate_to_tier = some t'.escalate_to_tier ∧
      (check_escalation ts msg ctx).reason = some t'.reason ∧
      (check_escalation ts msg ctx).trigger_id = some t'.trigger_id ∧
      route_request ts msg ctx llm = check_escalation ts msg ctx := by
  have hkwm : kwTriggerMatch (pyLower msg) t = true := by
    rw [kwTriggerMatch, hkw]
    exact List.any_eq_true.mpr ⟨k, hk, hsub⟩
  have hmatch : triggerMatches (pyLower msg) ctx t = true := by
    simp [triggerMatches, hkwm]
  obtain ⟨t', ht'⟩ :=
    find?_some_of_mem (fun t => triggerMatches (pyLower msg) ctx t) ts t ht hmatch
  have hfm : firstMatching (pyLower msg) ctx ts = some t' := ht'
  have hce : check_escalation ts msg ctx = escalationOf t' := by
    rw [check_escalation, checkEscalationLower_eq_firstMatching, hfm]
    rfl
  refine ⟨t', hfm, hce, ?_, ?_, ?_, ?_, ?_⟩
  · rw [hce]; rfl
  · rw [hce]; rfl
  · rw [hce]; rfl
  · rw [hce]; rfl
  · simp [route_request, hce, escalationOf]

/-- Witness for C2 (amended): a lowercase legal keyword with empty context
escalates at that trigger's tier. -/
theorem keyword_escalation_first_match_witness :
    ∃ t', firstMatching (pyLower "I will sue you") {}
        [⟨"legal_threat", ⟨some ["sue"], none, none⟩, 4, "Legal threat detected", true⟩]
        = some t' ∧
      check_escalation [⟨"legal_threat", ⟨some ["sue"], none, none⟩, 4,
          "Legal threat detected", true⟩] "I will sue you" {} = escalationOf t' ∧
      (check_escalation [⟨"legal_threat", ⟨some ["sue"], none, none⟩, 4,
          "Legal threat detected", true⟩] "I will sue you" {}).should_escalate = true ∧
      (check_escalation [⟨"legal_threat", ⟨some ["sue"], none, none⟩, 4,
          "Legal threat detected", true⟩] "I will sue you" {}).escalate_to_tier
        = some t'.escalate_to_tier ∧
      (check_escalation [⟨"legal_threat", ⟨some ["sue"], none, none⟩, 4,
          "Legal threat detected", true⟩] "I will sue you" {}).reason = some t'.reason ∧
      (check_escalation [⟨"legal_threat", ⟨some ["sue"], none, none⟩, 4,
          "Legal threat detected", true⟩] "I will sue you" {}).trigger_id
        = some t'.trigger_id ∧
      route_request [⟨"legal_threat", ⟨some ["sue"], none, none⟩, 4,
          "Legal threat detected", true⟩] "I will sue you" {} (.direct "ok")
        = check_escalation [⟨"legal_threat", ⟨some ["sue"], none, none⟩, 4,
            "Legal threat detected", true⟩] "I will sue you" {} :=
  keyword_escalation_first_match
    [⟨"legal_threat", ⟨some ["sue"], none, none⟩, 4, "Legal threat detected", true⟩]
    ⟨"legal_threat", ⟨some ["sue"], none, none⟩, 4, "Legal threat detected", true⟩
    ["sue"] "sue" "I will sue you" {} (.direct "ok")
    (List.mem_singleton.mpr rfl) rfl (List.mem_singleton.mpr rfl) (by decide)

/-- C3: a numeric-threshold trigger fires exactly on order values strictly
greater than its threshold: strictly above, escalation is returned; at or
below the boundary the trigger's condition does not match, and with it as
the only configured rule no escalation is returned. -/
theorem order_value_strict_threshold (ts : List Trigger) (t : Trigger) (T : Int)
    (msg : String) (ctx : CtrlCtx)
    (ht : t ∈ ts)
    (hkw : t.condition.keywords = none)
    (hT : t.condition.order_value_exceeds = some T) :
    (T < ctx.order_value.getD 0 →
      (check_escalation ts msg ctx).should_escalate = true) ∧
    (ctx.order_value.getD 0 ≤ T → triggerMatches (pyLower msg) ctx t = false) ∧
    ((check_escalation [t] msg ctx).should_escalate = true ↔
      T < ctx.order_value.getD 0) := by
  refine ⟨?_, ?_, ?_⟩
  · intro hgt
    have hmatch : triggerMatches (pyLower msg) ctx t = true := by
      simp [triggerMatches, kwTriggerMatch, valTriggerMatch, hkw, hT, hgt]
    rw [check_escalation, checkEscalationLower_should_escalate]
    exact List.any_eq_true.mpr ⟨t, ht, hmatch⟩
  · intro hle
    have hnlt : ¬ (T < ctx.order_value.getD 0) := not_lt.mpr hle
    simp [triggerMatches, kwTriggerMatch, valTriggerMatch, hkw, hT, hnlt]
  · rw [check_escalation, checkEscalationLower_should_escalate]
    simp [triggerMatches, kwTriggerMatch, valTriggerMatch, hkw, hT]

/-- Witness for C3 at threshold 500 with order value 600. -/
theorem order_value_strict_threshold_witness :
    ((500 : Int) < (({ order_value := some 600, customer_tier := none } :
        CtrlCtx).order_value.getD 0) →
      (check_escalation [⟨"high_value_order", ⟨none, some 500, none⟩, 3,
          "High value order requires review", true⟩] "test message"
          { order_value := some 600, customer_tier := none }).should_escalate = true) ∧
    ((({ order_value := some 600, customer_tier := none } :
        CtrlCtx).order_value.getD 0) ≤ 500 →
      triggerMatches (pyLower "test message")
        { order_value := some 600, customer_tier := none }
        ⟨"high_value_order", ⟨none, some 500, none⟩, 3,
          "High value order requires review", true⟩ = false) ∧
    ((check_escalation [⟨"high_value_order", ⟨none, some 500, none⟩, 3,
        "High value order requires review", true⟩] "test message"
        { order_value := some 600, customer_tier := none }).should_escalate = true ↔
      (500 : Int) < (({ order_value := some 600, customer_tier := none } :
        CtrlCtx).order_value.getD 0)) :=
  order_value_strict_threshold
    [⟨"high_value_order", ⟨none, some 500, none⟩, 3,
      "High value order requires review", true⟩]
    ⟨"high_value_order", ⟨none, some 500, none⟩, 3,
      "High value order requires review", true⟩
    500 "test message" { order_value := some 600, customer_tier := none }
    (List.mem_singleton.mpr rfl) rfl rfl

/-- C4 as stated fails in one detail: the fallback dict names the agent
"controller_agent", not "controller". -/
theorem fallback_agent_name_cex :
    (route_request [] "hello" {} (.failure "Request timed out")).fallback = true ∧
    (route_request [] "hello" {} (.failure "Request timed out")).agent
      = some "controller_agent" ∧
    ¬ (route_request [] "hello" {} (.failure "Request timed out")).agent
      = some "controller" := by
  exact ⟨by decide, by decide, by decide⟩

/-- C4 (amended): when the model call fails (timeout or provider error, after
the client's retries) and no escalation trigger fired first, `route_request`
returns the fallback dict with agent "controller_agent", fallback True and
the error message; the exception is caught, never propagated (the embedding
is a total function). -/
theorem llm_failure_fallback (ts : List Trigger) (msg : String) (ctx : CtrlCtx)
    (e : String)
    (hesc : (check_escalation ts msg ctx).should_escalate = false) :
    route_request ts msg ctx (.failure e) =
      { should_escalate := false, agent := some "controller_agent",
        error := some e, fallback := true } := by
  simp [route_request, hesc]

/-- Witness for C4 (amended) with no triggers configured and a timeout. -/
theorem llm_failure_fallback_witness :
    route_request [] "hello" {} (.failure "Request timed out") =
      { should_escalate := false, agent := some "controller_agent",
        error := some "Request timed out", fallback := true } :=
  llm_failure_fallback [] "hello" {} "Request timed out" rfl

/-- C5 as stated fails: `_check_escalation` implements no tier-membership
branch at all; a non-auto-escalate tier trigger whose configured set contains
the context's customer tier yields the plain `should_escalate = False` dict
whose `offer_escalation` flag is absent (false), not an offer decision. -/
theorem tier_trigger_ignored_cex :
    (check_escalation [⟨"vip_customer", ⟨none, none, some ["VIP", "Premium"]⟩, 2,
        "High-value customer", false⟩] "my order arrived damaged"
        { order_value := none, customer_tier := some "VIP" }).should_escalate = false ∧
    (check_escalation [⟨"vip_customer", ⟨none, none, some ["VIP", "Premium"]⟩, 2,
        "High-value customer", false⟩] "my order arrived damaged"
        { order_value := none, customer_tier := some "VIP" }).offer_escalation
      = false := by
  exact ⟨by decide, by decide⟩

/-- C5 (amended): the escalation check reads only `keywords` and
`order_value_exceeds` conditions; triggers carrying only a customer-tier
condition never match, whatever the context's tier and the trigger's
auto-escalate marking, so the check returns the plain non-escalation dict
with no offer flag. -/
theorem tier_trigger_never_fires (ts : List Trigger) (msg : String) (ctx : CtrlCtx)
    (tier : String) (htier : ctx.customer_tier = some tier)
    (hall : ∀ t ∈ ts, t.condition.keywords = none ∧
      t.condition.order_value_exceeds = none) :
    check_escalation ts msg ctx = noEscalation ∧
    (check_escalation ts msg ctx).offer_escalation = false ∧
    (check_escalation ts msg ctx).should_escalate = false := by
  have hce : check_escalation ts msg ctx = noEscalation :=
    checkEscalationLower_no_conditions (pyLower msg) ctx ts hall
  exact ⟨hce, by rw [hce]; rfl, by rw [hce]; rfl⟩

/-- Witness for C5 (amended): a VIP-only soft trigger on a routine message. -/
theorem tier_trigger_never_fires_witness :
    check_escalation [⟨"vip_soft", ⟨none, none, some ["VIP"]⟩, 2,
        "VIP soft offer", false⟩] "where is my order"
        { order_value := none, customer_tier := some "VIP" } = noEscalation ∧
    (check_escalation [⟨"vip_soft", ⟨none, none, some ["VIP"]⟩, 2,
        "VIP soft offer", false⟩] "where is my order"
        { order_value := none, customer_tier := some "VIP" }).offer_escalation
      = false ∧
    (check_escalation [⟨"vip_soft", ⟨none, none, some ["VIP"]⟩, 2,
        "VIP soft offer", false⟩] "where is my order"
        { order_value := none, customer_tier := some "VIP" }).should_escalate
      = false :=
  tier_trigger_never_fires
    [⟨"vip_soft", ⟨none, none, some ["VIP"]⟩, 2, "VIP soft offer", false⟩]
    "where is my order" { order_value := none, customer_tier := some "VIP" }
    "VIP" rfl
    (by
      intro t htm
      rw [List.mem_singleton] at htm
      subst htm
      exact ⟨rfl, rfl⟩)

end PostPurchase

namespace PostPurchase

/-- C6 as stated fails: the 0-match base confidence 0.7 IS returned by
`route` for some inputs — message "hello" with empty context detects
`general_query`, which has no keyword list, and no bonus applies. -/
theorem confidence_base_reachable_cex :
    (route "hello" {}).confidence = 7/10 ∧ (route "hello" {}).intent = "general_query" := by
  constructor
  · have hd : detect_intent "hello" {} = "general_query" := by decide
    have ha : alookup intent_keywords "general_query" = none := by decide
    have hb : ({} : RouteCtx).orderIdTruthy = false := by decide
    show calculate_confidence "hello" (detect_intent "hello" {}) {} = 7/10
    rw [hd]
    simp only [calculate_confidence, ha, Option.getD_none, matchCount,
      List.countP_nil, hb, Bool.false_and, Bool.false_eq_true, if_false]
    norm_num [min_def]
  · decide

/-- C6 (amended): the rule-based routing confidence equals the spec formula —
0.75 for exactly one keyword match of the detected intent, 0.9 for two or
more, a 0.1 bonus when the context has an order id and the intent is
order_status/refund/exchange, capped at 1.0 — and the 0-match base 0.7 is
returned exactly when no keyword of the detected intent matches (which is
reachable, hence 0.7 is a possible output of `route`). -/
theorem route_confidence_formula (msg : String) (ctx : RouteCtx) :
    (route msg ctx).confidence = specConfidence msg ctx ∧
    (matchCount (pyLower msg)
        ((alookup intent_keywords (detect_intent msg ctx)).getD []) = 0 →
      (route msg ctx).confidence = 7/10) := by
  constructor
  · rfl
  · intro h0
    have he : (route msg ctx).confidence = specConfidence msg ctx := rfl
    rw [he]
    by_cases hb : (ctx.orderIdTruthy &&
        ["order_status", "refund", "exchange"].contains (detect_intent msg ctx)) = true
    · exfalso
      have hc : ["order_status", "refund", "exchange"].contains
          (detect_intent msg ctx) = true := ((Bool.and_eq_true _ _).mp hb).2
      have h1 : detect_intent msg ctx ≠ "visual_verification" := by
        intro he'
        rw [he'] at hc
        exact absurd hc (by decide)
      have h2 : detect_intent msg ctx ≠ "general_query" := by
        intro he'
        rw [he'] at hc
        exact absurd hc (by decide)
      have hpos := detect_intent_pos_count msg ctx h1 h2
      omega
    · simp only [specConfidence, h0, hb]
      norm_num

/-- Witness for C6 (amended) at message "hello" with empty context. -/
theorem route_confidence_formula_witness :
    (route "hello" {}).confidence = specConfidence "hello" {} ∧
    (matchCount (pyLower "hello")
        ((alookup intent_keywords (detect_intent "hello" {})).getD []) = 0 →
      (route "hello" {}).confidence = 7/10) :=
  route_confidence_formula "hello" {}

/-- C7 as stated fails: `turn_count` is not monotone under every StateManager
operation — `update_context` can write an arbitrary value; here it drops the
counter from 1 back to 0. -/
theorem turn_count_decrease_cex :
    ((mgrAddMessage (mgrCreateState [] "c1" none none "t0").1 "c1" "user" "Hello" none
        "t1").map (fun r => turnCount r.2)) = some (some 1) ∧
    (((mgrAddMessage (mgrCreateState [] "c1" none none "t0").1 "c1" "user" "Hello" none
        "t1").bind (fun r => update_context r.1 "c1" [("turn_count", JVal.num 0)])).map
        (fun r => turnCount r.2)) = some (some 0) := by
  exact ⟨rfl, rfl⟩

/-- C7 (amended): `create_state` starts `turn_count` at 0 and each
`add_message` appends exactly one message and increments `turn_count` by
exactly one, so after N `add_message` calls the counter equals N and the
transcript holds N messages (monotonicity holds along `add_message` chains,
though not under arbitrary `update_context`/`update_state` writes). -/
theorem turn_count_after_n_messages (cid : String) (cust ord : Option String)
    (t0 : String) (inputs : List MsgInput) :
    turnCount (create_state cid cust ord t0) = some 0 ∧
    ∃ st' ms', addMany (create_state cid cust ord t0) inputs = some st' ∧
      messagesOf st' = some ms' ∧ ms'.length = inputs.length ∧
      turnCount st' = some (inputs.length : Int) := by
  constructor
  · rfl
  · obtain ⟨st', ms', ctx', ha, h1, h2, h3, h4⟩ :=
      addMany_count inputs (create_state cid cust ord t0) []
        [("started_at", JVal.str t0), ("turn_count", JVal.num 0),
         ("issues_detected", JVal.arr []), ("sentiment", JVal.str "neutral")] 0
        rfl rfl rfl
    refine ⟨st', ms', ha, ?_, ?_, ?_⟩
    · rw [messagesOf, h1]
    · simpa using h2
    · simp only [turnCount, h3, h4]
      norm_num

/-- C8: export/import round-trip — importing the export of any stored state
into a fresh manager succeeds and reproduces the state verbatim, in
particular an identical `messages` sequence and `context` mapping, stored
under the state's own conversation id. (`json.dumps`/`json.loads` of the
standard library are treated as an exact inverse pair on these values.) -/
theorem export_import_roundtrip (m : Manager) (cid : String) (st : PyDict)
    (cid' : String)
    (hst : mgrGet m cid = some st)
    (hid : dget st "conversation_id" = some (JVal.str cid')) :
    ∃ m' st', import_state [] (export_state m cid) = some (m', st') ∧
      st' = st ∧ messagesOf st' = messagesOf st ∧ contextOf st' = contextOf st ∧
      mgrGet m' cid' = some st := by
  refine ⟨mgrSet [] cid' st, st, ?_, rfl, rfl, rfl, ?_⟩
  · simp only [export_state, hst, import_state, hid]
  · simp [mgrSet, mgrGet]

/-- Witness for C8: a created conversation with one message round-trips. -/
theorem export_import_roundtrip_witness :
    ∃ m' st', import_state []
        (export_state (mgrSet [] "c1" ((add_message
            (create_state "c1" (some "cust_123") none "t0")
            "user" "Test message" none "t1").getD [])) "c1") = some (m', st') ∧
      st' = (add_message (create_state "c1" (some "cust_123") none "t0")
          "user" "Test message" none "t1").getD [] ∧
      messagesOf st' = messagesOf ((add_message
          (create_state "c1" (some "cust_123") none "t0")
          "user" "Test message" none "t1").getD []) ∧
      contextOf st' = contextOf ((add_message
          (create_state "c1" (some "cust_123") none "t0")
          "user" "Test message" none "t1").getD []) ∧
      mgrGet m' "c1" = some ((add_message
          (create_state "c1" (some "cust_123") none "t0")
          "user" "Test message" none "t1").getD []) :=
  export_import_roundtrip
    (mgrSet [] "c1" ((add_message (create_state "c1" (some "cust_123") none "t0")
        "user" "Test message" none "t1").getD []))
    "c1"
    ((add_message (create_state "c1" (some "cust_123") none "t0")
        "user" "Test message" none "t1").getD [])
    "c1" rfl rfl

/-- C9: rule-based routing is deterministic — identical `(message, context)`
inputs to `route` yield identical agent and confidence; the keyword tables
are fixed ordered lists and `route` reads nothing else (tie-breaks included,
via the first-maximum fold). -/
theorem route_deterministic (m₁ m₂ : String) (c₁ c₂ : RouteCtx)
    (hm : m₁ = m₂) (hc : c₁ = c₂) :
    (route m₁ c₁).agent = (route m₂ c₂).agent ∧
    (route m₁ c₁).confidence = (route m₂ c₂).confidence := by
  subst hm
  subst hc
  exact ⟨rfl, rfl⟩

/-- Witness for C9 at a concrete message and context, run twice. -/
theorem route_deterministic_witness :
    (route "Where is my package?" { order_id := some "ORD123" }).agent =
      (route "Where is my package?" { order_id := some "ORD123" }).agent ∧
    (route "Where is my package?" { order_id := some "ORD123" }).confidence =
      (route "Where is my package?" { order_id := some "ORD123" }).confidence :=
  route_deterministic "Where is my package?" "Where is my package?"
    { order_id := some "ORD123" } { order_id := some "ORD123" } rfl rfl

/-- C10: `update_state` writes only existing top-level fields — the stored
record's key set is unchanged (update keys that are not existing fields are
silently ignored, creating nothing) and every field not named in the updates
keeps its value. -/
theorem update_state_frame (m : Manager) (cid : String) (updates : PyDict)
    (st : PyDict) (m' : Manager) (st' : PyDict) (k : String)
    (hget : mgrGet m cid = some st)
    (hupd : update_state m cid updates = some (m', st')) :
    dmem st' k = dmem st k ∧
    ((∀ v, (k, v) ∉ updates) → dget st' k = dget st k) := by
  have hst' : st' = applyUpdates st updates := by
    simp only [update_state, hget] at hupd
    exact (congrArg Prod.snd (Option.some.inj hupd)).symm
  subst hst'
  exact ⟨dmem_applyUpdates updates st k,
    fun h => dget_applyUpdates_not_mem updates st k h⟩

/-- Witness for C10: an unknown key is dropped while `messages` is untouched
by an update that names only `unknown_field` and `current_agent`. -/
theorem update_state_frame_witness :
    dmem (applyUpdates (create_state "c1" none none "t0")
        [("unknown_field", JVal.num 5), ("current_agent", JVal.str "monitor")]) "messages"
      = dmem (create_state "c1" none none "t0") "messages" ∧
    ((∀ v, ("messages", v) ∉
        [("unknown_field", JVal.num 5), ("current_agent", JVal.str "monitor")]) →
      dget (applyUpdates (create_state "c1" none none "t0")
          [("unknown_field", JVal.num 5), ("current_agent", JVal.str "monitor")]) "messages"
        = dget (create_state "c1" none none "t0") "messages") :=
  update_state_frame (mgrSet [] "c1" (create_state "c1" none none "t0")) "c1"
    [("unknown_field", JVal.num 5), ("current_agent", JVal.str "monitor")]
    (create_state "c1" none none "t0")
    (mgrSet (mgrSet [] "c1" (create_state "c1" none none "t0")) "c1"
      (applyUpdates (create_state "c1" none none "t0")
        [("unknown_field", JVal.num 5), ("current_agent", JVal.str "monitor")]))
    (applyUpdates (create_state "c1" none none "t0")
      [("unknown_field", JVal.num 5), ("current_agent", JVal.str "monitor")])
    "messages" rfl rfl

end PostPurchase
